import Mathlib

/-!
Verification development for the `prokop` WebGPU samples
(`src/prokop/common/webgpu-utils.js`, `src/prokop/computeBoids/computeBoids.js`,
`src/prokop/computeBoids/computeBoids-hardcode.js` and the Game-of-Life demo).

The JavaScript is embedded shallowly: pure helper functions become Lean
functions, GPU buffers become lists of words, `throw` becomes `Except.error`,
and the stateful frame loop / error handler become explicit state-transition
functions.  Each theorem below checks one sentence of the natural-language
specification against this embedding.
-/

namespace WebgpuUtils

/-- Mapping from WGSL type names to WebGPU vertex formats.
Embeds `typeToFormat` of `webgpu-utils.js`: a fixed lookup table with
`"float32"` as the fallback for any unrecognized name. -/
def typeToFormat (t : String) : String :=
  if t = "f32" then "float32"
  else if t = "vec2f" then "float32x2"
  else if t = "vec3f" then "float32x3"
  else if t = "vec4f" then "float32x4"
  else if t = "i32" then "sint32"
  else if t = "vec2i" then "sint32x2"
  else if t = "vec3i" then "sint32x3"
  else if t = "vec4i" then "sint32x4"
  else if t = "u32" then "uint32"
  else if t = "vec2u" then "uint32x2"
  else if t = "vec3u" then "uint32x3"
  else if t = "vec4u" then "uint32x4"
  else "float32"

/-- Key set of the `typeToFormat` lookup table (the "recognized set" of
WGSL attribute type names). -/
def recognizedTypes : List String :=
  ["f32", "vec2f", "vec3f", "vec4f",
   "i32", "vec2i", "vec3i", "vec4i",
   "u32", "vec2u", "vec3u", "vec4u"]

/-- Mapping from WGSL type names to byte sizes.
Embeds `typeToSize` of `webgpu-utils.js`: only the four float types are in
the table and the JS fallback `sizes[type] || 0` yields `0` for every other
name. -/
def typeToSize (t : String) : Nat :=
  if t = "f32" then 4
  else if t = "vec2f" then 8
  else if t = "vec3f" then 12
  else if t = "vec4f" then 16
  else 0

/-- One vertex attribute extracted from a shader's entry-point parameter
list, as built by the loop in `parseShaderLocations`. -/
structure VertexAttribute where
  location : Nat
  name : String
  type : String
  bytesPerElement : Nat
  deriving Repr, DecidableEq

/-- Attribute record constructed for one `@location(l) name : type` match in
`parseShaderLocations`: the byte size is computed by `typeToSize`. -/
def mkAttribute (loc : Nat) (name : String) (type : String) : VertexAttribute :=
  { location := loc, name := name, type := type, bytesPerElement := typeToSize type }

/-- One attribute entry of a WebGPU vertex-buffer layout descriptor. -/
structure GPUVertexAttribute where
  shaderLocation : Nat
  offset : Nat
  format : String
  deriving Repr, DecidableEq

/-- One WebGPU vertex-buffer layout descriptor. -/
structure GPUBufferLayout where
  arrayStride : Nat
  stepMode : String
  attributes : List GPUVertexAttribute
  deriving Repr, DecidableEq

/-- Embeds `generateBufferLayouts` of `webgpu-utils.js`.  The JS throws when
`![0,1,2].every(l => actualLocations.includes(l))`; otherwise it returns the
pair of an instance-stepped layout built from the attributes with location
below 2 and a fixed vertex-stepped layout for location 2. -/
def generateBufferLayouts (locations : List VertexAttribute) :
    Except String (List GPUBufferLayout) :=
  let actualLocations := locations.map (·.location)
  if ¬ ([0, 1, 2].all (fun l => actualLocations.contains l)) then
    .error "Missing required vertex attributes"
  else
    let instanceBuffer : GPUBufferLayout :=
      { arrayStride := 16
        stepMode := "instance"
        attributes :=
          (locations.filter (fun l => l.location < 2)).map
            (fun attr =>
              { shaderLocation := attr.location
                offset := attr.location * 8
                format := "float32x2" }) }
    let vertexBuffer : GPUBufferLayout :=
      { arrayStride := 8
        stepMode := "vertex"
        attributes := [{ shaderLocation := 2, offset := 0, format := "float32x2" }] }
    .ok [instanceBuffer, vertexBuffer]

/-- Strip a literal pattern from the front of a character list, returning the
rest on success.  Models matching a literal piece of a JS regular expression. -/
def stripPre : List Char → List Char → Option (List Char)
  | [], s => some s
  | _ :: _, [] => none
  | p :: ps, c :: cs => if p = c then stripPre ps cs else none

/-- Drop every leading whitespace character. -/
def dropWs : List Char → List Char
  | [] => []
  | c :: cs => if c.isWhitespace then dropWs cs else c :: cs

/-- Match the regex piece `\s+`: at least one whitespace character, consumed
greedily (the following pieces in the source regexes can never match a
whitespace character, so greediness is exact here). -/
def skipWs1 : List Char → Option (List Char)
  | [] => none
  | c :: cs => if c.isWhitespace then some (dropWs cs) else none

/-- Match the capture group of the source regexes: the maximal
nonempty run of characters that are neither whitespace nor an opening
parenthesis starting here. -/
def takeName : List Char → List Char
  | [] => []
  | c :: cs => if c.isWhitespace ∨ c = '(' then [] else c :: takeName cs

/-- Character list of the literal piece `fn`. -/
def fnKeyword : List Char := ['f', 'n']

/-- Match the pattern `marker` + whitespace + `fn` + whitespace + name at the
head of the input, returning the captured name.  This is the anchored form of
the JS regexes matching a vertex or fragment stage marker. -/
def matchStageAt (marker s : List Char) : Option String := do
  let s1 ← stripPre marker s
  let s2 ← skipWs1 s1
  let s3 ← stripPre fnKeyword s2
  let s4 ← skipWs1 s3
  let n := takeName s4
  if n = [] then none else some (String.mk n)

/-- Match `fn` + whitespace + name at the head of the input. -/
def matchFnAt (s : List Char) : Option String := do
  let s1 ← stripPre fnKeyword s
  let s2 ← skipWs1 s1
  let n := takeName s2
  if n = [] then none else some (String.mk n)

/-- Return the result of `f` at the leftmost suffix where it matches.  This is
the search loop of `RegExp.exec`: try each start position left to right. -/
def scanFirst (f : List Char → Option String) : List Char → Option String
  | [] => f []
  | c :: cs =>
    match f (c :: cs) with
    | some n => some n
    | none => scanFirst f cs

/-- Character list of the vertex-stage marker. -/
def vertexMarker : List Char := "@vertex".data

/-- Character list of the fragment-stage marker. -/
def fragmentMarker : List Char := "@fragment".data

/-- Character list of the compute-stage marker. -/
def computeMarker : List Char := "@compute".data

/-- Match the compute regex anchored at the head of the input: the compute
marker, then (per the lazy gap in the regex) the first later
position where `fn` + whitespace + name matches. -/
def matchComputeAt (s : List Char) : Option String := do
  let s1 ← stripPre computeMarker s
  scanFirst matchFnAt s1

/-- Leftmost match of the vertex- or fragment-stage pattern in a source. -/
def findStage (marker : List Char) (s : List Char) : Option String :=
  scanFirst (matchStageAt marker) s

/-- Leftmost match of the compute-stage pattern in a source. -/
def findCompute (s : List Char) : Option String :=
  scanFirst matchComputeAt s

/-- Entry-point names extracted from one shader source, one field per stage. -/
structure EntryPoints where
  vertex : Option String
  fragment : Option String
  compute : Option String
  deriving Repr, DecidableEq

/-- Embeds `parseEntryPoints` of `webgpu-utils.js`: run the stage regexes
selected by the requested pipeline kind, throw when a compute request finds no
compute entry point or a render request misses the vertex or the fragment
entry point, and otherwise return the captured names. -/
def parseEntryPoints (shaderCode : String) (type : String) :
    Except String EntryPoints :=
  let vertexMatch := if type = "render" then findStage vertexMarker shaderCode.data else none
  let fragmentMatch := if type = "render" then findStage fragmentMarker shaderCode.data else none
  let computeMatch := if type = "compute" then findCompute shaderCode.data else none
  if type = "compute" ∧ computeMatch = none then
    .error "Compute shader must contain @compute entry point"
  else if type = "render" ∧ (vertexMatch = none ∨ fragmentMatch = none) then
    .error "Render shader must contain both @vertex and @fragment entry points"
  else
    .ok { vertex := vertexMatch, fragment := fragmentMatch, compute := computeMatch }

/-- Metadata record stored in the `pipelineMetadata` side table.  Compute
pipelines are stored as `{ type: 'compute' }` (no `buffers` field, modelled as
`none`); render pipelines as `{ type: 'render', buffers }`. -/
structure PipelineMetadata where
  type : String
  buffers : Option (List GPUBufferLayout)
  deriving Repr, DecidableEq

/-- The `pipelineMetadata` WeakMap, modelled as an association list keyed by a
stable pipeline identifier. -/
def MetadataTable : Type := List (Nat × PipelineMetadata)

/-- Lookup in the side table (`pipelineMetadata.get(pipeline)`), `none` for a
pipeline that was never registered. -/
def lookupMeta (table : MetadataTable) (pid : Nat) : Option PipelineMetadata :=
  match table with
  | [] => none
  | (k, m) :: rest => if k = pid then some m else lookupMeta rest pid

/-- Embeds `getPipelineType`: `pipelineMetadata.get(pipeline)?.type ||
'unknown'` — the stored type string unless it is absent or empty. -/
def getPipelineType (table : MetadataTable) (pid : Nat) : String :=
  match lookupMeta table pid with
  | some m => if m.type = "" then "unknown" else m.type
  | none => "unknown"

/-- Embeds `getPipelineBuffers`: `pipelineMetadata.get(pipeline)?.buffers ||
[]` — the stored layout list when a `buffers` field exists (a stored empty
array is truthy in JS and is returned as is), else the empty list. -/
def getPipelineBuffers (table : MetadataTable) (pid : Nat) : List GPUBufferLayout :=
  match lookupMeta table pid with
  | some m =>
    match m.buffers with
    | some bs => bs
    | none => []
  | none => []

/-- Registration performed by `createPipeline` for a compute pipeline:
`pipelineMetadata.set(pipeline, { type: 'compute' })`. -/
def registerComputePipeline (table : MetadataTable) (pid : Nat) : MetadataTable :=
  (pid, { type := "compute", buffers := none }) :: table

/-- Registration performed by `createPipeline` for a render pipeline:
`pipelineMetadata.set(pipeline, { type: 'render', buffers })`. -/
def registerRenderPipeline (table : MetadataTable) (pid : Nat)
    (buffers : List GPUBufferLayout) : MetadataTable :=
  (pid, { type := "render", buffers := some buffers }) :: table

end WebgpuUtils

namespace ComputeBoids

/-- A GPU buffer's contents, one `Nat` per 32-bit word.  WebGPU buffers are
zero-initialized at creation. -/
def zeroBuffer (n : Nat) : List Nat := List.replicate n 0

/-- Host-side `TypedArray.set(data, 0)` on a freshly mapped buffer: overwrite
the words from index 0 with `data`, keeping the tail. -/
def writeWords (buf : List Nat) (data : List Nat) : List Nat :=
  data ++ buf.drop data.length

/-- Embeds the `particleBuffers` construction of `computeBoids.js`: the code
runs `[0,1].map(...)` where each iteration creates a buffer sized to the seed
and copies the full seed into it. -/
def particleBuffers (seed : List Nat) : List (List Nat) :=
  [0, 1].map (fun _ => writeWords (zeroBuffer seed.length) seed)

/-- Embeds the `particleBuffers` construction of `computeBoids-hardcode.js`:
two buffers created separately, each mapped at creation and each filled with
the same seed. -/
def particleBuffersHardcode (seed : List Nat) : List Nat × List Nat :=
  (writeWords (zeroBuffer seed.length) seed,
   writeWords (zeroBuffer seed.length) seed)

/-- Embeds the `cellBuffers` construction of the Game-of-Life demo: buffer 0
is mapped at creation and filled with the seed, buffer 1 is created without
`mappedAtCreation` and never written before the first frame, so it keeps its
zero initialization. -/
def cellBuffers (seed : List Nat) : List Nat × List Nat :=
  (writeWords (zeroBuffer seed.length) seed, zeroBuffer seed.length)

/-- One compute bind group: the indices of the particle buffer bound as the
read view (binding 1) and as the write view (binding 2). -/
structure BindGroup where
  readBuffer : Nat
  writeBuffer : Nat
  deriving Repr, DecidableEq

/-- Embeds the `particleBindGroups` loop: for `i = 0, 1` the bind group binds
`particleBuffers[i]` at binding 1 and `particleBuffers[(i + 1) % 2]` at
binding 2. -/
def particleBindGroups : List BindGroup :=
  (List.range 2).map (fun i => { readBuffer := i, writeBuffer := (i + 1) % 2 })

/-- What one executed frame of `computeBoids.js` did: which bind-group parity
the compute pass used, which buffers that bind group reads and writes, and
which buffer the render pass drew from. -/
structure FrameRecord where
  computeParity : Nat
  readBuffer : Nat
  writeBuffer : Nat
  renderBuffer : Nat
  deriving Repr, DecidableEq

/-- The work encoded by `frame()` when the loop counter holds `t`: the compute
pass uses `particleBindGroups[t % 2]` and the render pass sets
`particleBuffers[(t + 1) % 2]` as its instance vertex buffer. -/
def encodeFrame (t : Nat) : FrameRecord :=
  let bg := particleBindGroups.getD (t % 2) { readBuffer := 0, writeBuffer := 0 }
  { computeParity := t % 2
    readBuffer := bg.readBuffer
    writeBuffer := bg.writeBuffer
    renderBuffer := (t + 1) % 2 }

/-- Value of the loop counter `t` at the start of frame `n`: it is `0` before
the first frame and is incremented once per submitted frame. -/
def counterAt : Nat → Nat
  | 0 => 0
  | n + 1 => counterAt n + 1

/-- The record of frame `n` of the steady-state loop. -/
def frameAt (n : Nat) : FrameRecord := encodeFrame (counterAt n)

/-- State of the error dialog of `fail` in `webgpu-utils.js`.  `shown` counts
how many times a message was actually displayed — the externally visible
error reports. -/
structure ErrorDialog where
  isOpen : Bool
  text : String
  shown : Nat
  deriving Repr, DecidableEq

/-- Embeds the `show` closure of `fail`: the dialog message is not overwritten
while the dialog is still open, so only the first error is displayed. -/
def showError (d : ErrorDialog) (msg : String) : ErrorDialog :=
  if d.isOpen then d
  else { isOpen := true, text := msg, shown := d.shown + 1 }

/-- Host-side state touched by `handleCriticalError` in `computeBoids.js`. -/
structure AppState where
  errorOccurred : Bool
  shouldContinueRendering : Bool
  dialog : ErrorDialog
  deriving Repr, DecidableEq

/-- Embeds `handleCriticalError`: a second invocation while `errorOccurred`
is already set returns immediately; the first invocation latches the flag,
stops the loop, and reports once through `fail`'s dialog. -/
def handleCriticalError (s : AppState) (msg : String) : AppState :=
  if s.errorOccurred then s
  else
    { errorOccurred := true
      shouldContinueRendering := false
      dialog := showError s.dialog msg }

/-- Events the frame loop reacts to: a display-refresh resume of `frame()`,
or a stop request (`handleCriticalError` setting `shouldContinueRendering`
to false and cancelling the pending animation request). -/
inductive LoopEvent where
  | resume
  | stop
  deriving Repr, DecidableEq

/-- Host-side state of the `frame()` loop of `computeBoids.js`.
`encodedFrames` counts frames whose command encoding has begun,
`submittedFrames` counts frames submitted to the queue, and
`frameScheduled` says whether an animation request is pending. -/
structure LoopState where
  shouldContinueRendering : Bool
  errorOccurred : Bool
  t : Nat
  encodedFrames : Nat
  submittedFrames : Nat
  frameScheduled : Bool
  deriving Repr, DecidableEq

/-- One transition of the loop.  A resume replays `frame()`: it returns
before any encoding when the flags forbid rendering; otherwise it encodes the
compute and render passes, submits them in the same invocation, increments
`t`, and schedules the next frame only if the flags still allow it.  A stop
clears the running flag and cancels the pending animation request. -/
def stepLoop (s : LoopState) : LoopEvent → LoopState
  | .stop => { s with shouldContinueRendering := false, frameScheduled := false }
  | .resume =>
    if s.shouldContinueRendering = false ∨ s.errorOccurred = true then s
    else
      let s1 := { s with encodedFrames := s.encodedFrames + 1 }
      let s2 := { s1 with submittedFrames := s1.submittedFrames + 1, t := s1.t + 1 }
      if s2.shouldContinueRendering = true ∧ s2.errorOccurred = false then
        { s2 with frameScheduled := true }
      else s2

/-- Run the loop over a sequence of events. -/
def runLoop (s : LoopState) : List LoopEvent → LoopState
  | [] => s
  | e :: evs => runLoop (stepLoop s e) evs

end ComputeBoids

namespace ComputeBoids

theorem counterAt_eq (n : Nat) : counterAt n = n := by
  induction n with
  | zero => rfl
  | succ n ih => simp [counterAt, ih]

/-- C2: the double-buffering discipline holds for every frame `n` starting at
`n = 0`: the compute pass of frame `n` uses the bind group of parity
`p = n % 2`, that bind group binds `buffer[p]` as the read view and
`buffer[(n + 1) % 2]` as the write view (the two bind groups reference
disjoint read/write pairs), and the render pass of frame `n` draws from
`buffer[(n + 1) % 2]`, the buffer the compute pass just wrote. -/
theorem double_buffering_invariant :
    particleBindGroups =
      [{ readBuffer := 0, writeBuffer := 1 }, { readBuffer := 1, writeBuffer := 0 }]
    ∧ ∀ n : Nat,
      frameAt n =
        { computeParity := n % 2
          readBuffer := n % 2
          writeBuffer := (n + 1) % 2
          renderBuffer := (n + 1) % 2 }
      ∧ (frameAt n).renderBuffer = (frameAt n).writeBuffer := by
  have hbg : particleBindGroups =
      [{ readBuffer := 0, writeBuffer := 1 }, { readBuffer := 1, writeBuffer := 0 }] := by
    decide
  refine ⟨hbg, fun n => ?_⟩
  have hframe : frameAt n =
      { computeParity := n % 2
        readBuffer := n % 2
        writeBuffer := (n + 1) % 2
        renderBuffer := (n + 1) % 2 } := by
    rcases Nat.mod_two_eq_zero_or_one n with h | h
    · have h' : (n + 1) % 2 = 1 := by omega
      simp [frameAt, counterAt_eq, encodeFrame, hbg, h, h']
    · have h' : (n + 1) % 2 = 0 := by omega
      simp [frameAt, counterAt_eq, encodeFrame, hbg, h, h']
  exact ⟨hframe, by rw [hframe]⟩

/-- C6 counterexample: the Game-of-Life double-buffer construction
(`cellBuffers`) does not seed buffer 1; with seed `[1]` the two buffers start
unequal and buffer 1 does not hold the seed. -/
theorem cell_buffers_not_seeded_equal :
    cellBuffers [1] = ([1], [0])
    ∧ (cellBuffers [1]).fst ≠ (cellBuffers [1]).snd
    ∧ (cellBuffers [1]).snd ≠ [1] := by
  decide

/-- C6 amended: the two particle-buffer constructions write the seed into
buffer 0 and buffer 1 identically (both buffers start equal to the seed),
while the cell-buffer construction writes the seed only into buffer 0 and
leaves buffer 1 zero-filled. -/
theorem double_buffer_seeding (seed : List Nat) :
    particleBuffers seed = [seed, seed]
    ∧ particleBuffersHardcode seed = (seed, seed)
    ∧ cellBuffers seed = (seed, zeroBuffer seed.length) := by
  have hw : writeWords (zeroBuffer seed.length) seed = seed := by
    simp [writeWords, zeroBuffer, List.drop_replicate]
  simp [particleBuffers, particleBuffersHardcode, cellBuffers, hw]

/-- C7: failure reporting is idempotent.  From a run state with no error
latched and the dialog closed, two successive critical-error notifications
produce exactly one visible error report, and the message shown is the first
error (first error wins); the error flag is latched. -/
theorem error_report_idempotent (s : AppState) (m1 m2 : String)
    (h1 : s.errorOccurred = false) (h2 : s.dialog.isOpen = false) :
    (handleCriticalError (handleCriticalError s m1) m2).dialog.shown
        = s.dialog.shown + 1
    ∧ (handleCriticalError (handleCriticalError s m1) m2).dialog.text = m1
    ∧ (handleCriticalError (handleCriticalError s m1) m2).errorOccurred = true := by
  simp [handleCriticalError, showError, h1, h2]

/-- C7 witness: from the initial state, two notifications show exactly one
report, carrying the first message. -/
theorem error_report_idempotent_witness :
    (handleCriticalError
        (handleCriticalError
          { errorOccurred := false
            shouldContinueRendering := true
            dialog := { isOpen := false, text := "", shown := 0 } } "boom") "late").dialog.shown = 1
    ∧ (handleCriticalError
        (handleCriticalError
          { errorOccurred := false
            shouldContinueRendering := true
            dialog := { isOpen := false, text := "", shown := 0 } } "boom") "late").dialog.text
        = "boom" := by
  have h := error_report_idempotent
    { errorOccurred := false
      shouldContinueRendering := true
      dialog := { isOpen := false, text := "", shown := 0 } } "boom" "late" rfl rfl
  exact ⟨h.1, h.2.1⟩

theorem stepLoop_stopped (s : LoopState) (e : LoopEvent)
    (h : s.shouldContinueRendering = false) :
    (stepLoop s e).shouldContinueRendering = false
    ∧ (stepLoop s e).submittedFrames = s.submittedFrames
    ∧ (stepLoop s e).encodedFrames = s.encodedFrames
    ∧ ((stepLoop s e).frameScheduled = true → s.frameScheduled = true) := by
  cases e with
  | resume => simp [stepLoop, h]
  | stop => simp [stepLoop, h]

theorem runLoop_stopped (evs : List LoopEvent) :
    ∀ s : LoopState, s.shouldContinueRendering = false →
      (runLoop s evs).submittedFrames = s.submittedFrames
      ∧ (runLoop s evs).encodedFrames = s.encodedFrames
      ∧ ((runLoop s evs).frameScheduled = true → s.frameScheduled = true) := by
  induction evs with
  | nil => intro s _; simp [runLoop]
  | cons e evs ih =>
    intro s h
    have hs := stepLoop_stopped s e h
    have hrest := ih (stepLoop s e) hs.1
    exact ⟨hrest.1.trans hs.2.1, hrest.2.1.trans hs.2.2.1,
      fun hh => hs.2.2.2 (hrest.2.2 hh)⟩

/-- C8: once the running flag is false, every later resume of the frame loop
checks the flag before encoding and returns, so no further frame is encoded,
submitted, or scheduled after the in-flight one; and each single step keeps
the count of frames whose encoding began equal to the count of submitted
frames — there is no mid-frame cancellation point between encoding and
submission. -/
theorem frame_loop_cancellation (s : LoopState) (evs : List LoopEvent)
    (hrun : s.shouldContinueRendering = false) :
    (runLoop s evs).submittedFrames = s.submittedFrames
    ∧ (runLoop s evs).encodedFrames = s.encodedFrames
    ∧ ((runLoop s evs).frameScheduled = true → s.frameScheduled = true)
    ∧ ∀ (s' : LoopState) (e : LoopEvent),
        s'.encodedFrames = s'.submittedFrames →
        (stepLoop s' e).encodedFrames = (stepLoop s' e).submittedFrames := by
  have main := runLoop_stopped evs s hrun
  refine ⟨main.1, main.2.1, main.2.2, ?_⟩
  intro s' e he
  cases e with
  | stop => simpa [stepLoop] using he
  | resume =>
    by_cases hc : s'.shouldContinueRendering = false ∨ s'.errorOccurred = true
    · simp [stepLoop, hc, he]
    · simp only [stepLoop, if_neg hc]
      split <;> simp [he]

/-- C8 witness: from a stopped state with three submitted frames and no
pending request, two further resume events neither submit nor encode
anything. -/
theorem frame_loop_cancellation_witness :
    (runLoop
        { shouldContinueRendering := false, errorOccurred := false, t := 3
          encodedFrames := 3, submittedFrames := 3, frameScheduled := false }
        [.resume, .resume]).submittedFrames = 3
    ∧ (runLoop
        { shouldContinueRendering := false, errorOccurred := false, t := 3
          encodedFrames := 3, submittedFrames := 3, frameScheduled := false }
        [.resume, .resume]).encodedFrames = 3 := by
  have h := frame_loop_cancellation
    { shouldContinueRendering := false, errorOccurred := false, t := 3
      encodedFrames := 3, submittedFrames := 3, frameScheduled := false }
    [.resume, .resume] rfl
  exact ⟨h.1, h.2.1⟩

end ComputeBoids

namespace WebgpuUtils

theorem filter_map_location (l : List VertexAttribute) :
    (l.filter (fun a => a.location < 2)).map
        (fun attr => ({ shaderLocation := attr.location, offset := attr.location * 8,
                        format := "float32x2" } : GPUVertexAttribute))
      = ((l.map (·.location)).filter (fun p => p < 2)).map
          (fun p => { shaderLocation := p, offset := p * 8, format := "float32x2" }) := by
  induction l with
  | nil => rfl
  | cons a l ih =>
    by_cases h : a.location < 2 <;> simp [List.filter_cons, h, ih]

theorem generateBufferLayouts_locs (l : List VertexAttribute) :
    generateBufferLayouts l =
      if ¬ ([0, 1, 2].all (fun x => (l.map (·.location)).contains x)) then
        .error "Missing required vertex attributes"
      else
        .ok [{ arrayStride := 16, stepMode := "instance",
               attributes := ((l.map (·.location)).filter (fun p => p < 2)).map
                 (fun p => { shaderLocation := p, offset := p * 8, format := "float32x2" }) },
             { arrayStride := 8, stepMode := "vertex",
               attributes := [{ shaderLocation := 2, offset := 0, format := "float32x2" }] }] := by
  simp only [generateBufferLayouts, filter_map_location]

theorem perm_all_contains (l : List VertexAttribute)
    (h : (l.map (·.location)).Perm [0, 1, 2]) :
    ([0, 1, 2].all (fun x => (l.map (·.location)).contains x)) = true := by
  have h0 : 0 ∈ l.map (·.location) := h.mem_iff.mpr (by simp)
  have h1 : 1 ∈ l.map (·.location) := h.mem_iff.mpr (by simp)
  have h2 : 2 ∈ l.map (·.location) := h.mem_iff.mpr (by simp)
  simp only [List.mem_map] at h0 h1 h2
  simp [List.all_cons]
  exact ⟨h0, h1, h2⟩

theorem map_shaderLocation_mk (xs : List Nat) :
    ((xs.map
        (fun p =>
          ({ shaderLocation := p, offset := p * 8, format := "float32x2" } :
            GPUVertexAttribute))).map (·.shaderLocation)) = xs := by
  induction xs with
  | nil => rfl
  | cons x xs ih => simp [ih]

/-- C1 (evidence for the code bug): the location validation of
`generateBufferLayouts` only tests that each of 0, 1, 2 occurs among the
declared locations.  A declared location set `{0, 1, 2, 3}` — a proper
superset of `{0, 1, 2}` — is therefore accepted and buffer layouts are
produced, although the comment above the check ("Validate we have exactly 3
locations (0,1,2)") and the specification demand a failure; a proper subset
such as `{0, 1}` does fail as specified. -/
theorem superset_locations_accepted :
    (generateBufferLayouts
        [mkAttribute 0 "a" "vec2f", mkAttribute 1 "b" "vec2f",
         mkAttribute 2 "c" "vec2f", mkAttribute 3 "d" "vec4f"]).isOk = true
    ∧ (generateBufferLayouts
        [mkAttribute 0 "a" "vec2f", mkAttribute 1 "b" "vec2f"]).isOk = false := by
  decide

/-- C3: for every attribute list whose declared locations are exactly
`{0, 1, 2}` (one declaration per location, in any order), layout generation
succeeds with exactly two buffer layouts: first an instance-stepped stream of
stride 16 whose attributes cover locations 0 and 1 as `float32x2` at offset
`8 * location`, then a vertex-stepped stream of stride 8 covering location 2
as `float32x2` at offset 0. -/
theorem exact_locations_two_streams (l : List VertexAttribute)
    (h : (l.map (·.location)).Perm [0, 1, 2]) :
    ∃ attrs,
      generateBufferLayouts l =
          .ok [{ arrayStride := 16, stepMode := "instance", attributes := attrs },
               { arrayStride := 8, stepMode := "vertex",
                 attributes := [{ shaderLocation := 2, offset := 0, format := "float32x2" }] }]
      ∧ (attrs.map (·.shaderLocation)).Perm [0, 1]
      ∧ ∀ a ∈ attrs, a.format = "float32x2" ∧ a.offset = a.shaderLocation * 8 := by
  have hval := perm_all_contains l h
  refine ⟨((l.map (·.location)).filter (fun p => p < 2)).map
      (fun p => { shaderLocation := p, offset := p * 8, format := "float32x2" }), ?_, ?_, ?_⟩
  · rw [generateBufferLayouts_locs, if_neg (not_not_intro hval)]
  · have hf := h.filter (fun p => decide (p < 2))
    rw [map_shaderLocation_mk]
    simpa using hf
  · intro a ha
    simp only [List.mem_map] at ha
    obtain ⟨p, _, rfl⟩ := ha
    exact ⟨rfl, rfl⟩

/-- C3 witness: the boids sprite shader's three attributes at locations
0, 1, 2 yield the instance-stride-16 and vertex-stride-8 layout pair. -/
theorem exact_locations_two_streams_witness :
    ∃ attrs,
      generateBufferLayouts
          [mkAttribute 0 "a_particlePos" "vec2f", mkAttribute 1 "a_particleVel" "vec2f",
           mkAttribute 2 "a_pos" "vec2f"] =
        .ok [{ arrayStride := 16, stepMode := "instance", attributes := attrs },
             { arrayStride := 8, stepMode := "vertex",
               attributes := [{ shaderLocation := 2, offset := 0, format := "float32x2" }] }]
      ∧ (attrs.map (·.shaderLocation)).Perm [0, 1]
      ∧ ∀ a ∈ attrs, a.format = "float32x2" ∧ a.offset = a.shaderLocation * 8 :=
  exact_locations_two_streams _ (by decide)

/-- C4 counterexample: `mat4x4f` is not in the recognized type set; its
mapped format does default to `float32`, but the byte size recorded in the
attribute is `0`, not `4` — `typeToSize` falls back to `0`. -/
theorem unknown_type_size_not_four :
    "mat4x4f" ∉ recognizedTypes
    ∧ typeToFormat "mat4x4f" = "float32"
    ∧ (mkAttribute 0 "m" "mat4x4f").bytesPerElement = 0
    ∧ (mkAttribute 0 "m" "mat4x4f").bytesPerElement ≠ 4 := by
  decide

/-- C4 amended: for every attribute type name outside the recognized set,
introspection does not fail and the attribute defaults to a scalar float
format, but its recorded byte size is `0` (the `typeToSize` fallback), not
`4`. -/
theorem unknown_type_defaults (t : String) (h : t ∉ recognizedTypes) :
    typeToFormat t = "float32"
    ∧ typeToSize t = 0
    ∧ ∀ (loc : Nat) (name : String), (mkAttribute loc name t).bytesPerElement = 0 := by
  simp only [recognizedTypes, List.mem_cons, List.not_mem_nil, or_false, not_or] at h
  obtain ⟨hf32, hv2f, hv3f, hv4f, hi32, hv2i, hv3i, hv4i, hu32, hv2u, hv3u, hv4u⟩ := h
  refine ⟨?_, ?_, ?_⟩
  · simp [typeToFormat, hf32, hv2f, hv3f, hv4f, hi32, hv2i, hv3i, hv4i, hu32, hv2u, hv3u, hv4u]
  · simp [typeToSize, hf32, hv2f, hv3f, hv4f]
  · intro loc name
    simp [mkAttribute, typeToSize, hf32, hv2f, hv3f, hv4f]

/-- C4 witness: the unrecognized name `mat4x4f` maps to format `float32`
with recorded byte size `0`. -/
theorem unknown_type_defaults_witness :
    typeToFormat "mat4x4f" = "float32"
    ∧ typeToSize "mat4x4f" = 0
    ∧ (mkAttribute 3 "m" "mat4x4f").bytesPerElement = 0 := by
  have h := unknown_type_defaults "mat4x4f" (by decide)
  exact ⟨h.1, h.2.1, h.2.2 3 "m"⟩

/-- C9 counterexample: two attribute lists with the same set of declared
locations `{0, 1, 2}` (the second declares location 0 twice) both pass
location validation, yet the generated layouts differ — so the layouts are
not determined by the location set alone, and validated inputs do not all
yield one fixed layout pair. -/
theorem layouts_not_determined_by_location_set :
    (generateBufferLayouts
        [mkAttribute 0 "a" "vec2f", mkAttribute 1 "b" "vec2f",
         mkAttribute 2 "c" "vec2f"]).isOk = true
    ∧ (generateBufferLayouts
        [mkAttribute 0 "x" "vec2f", mkAttribute 0 "y" "vec2f",
         mkAttribute 1 "b" "vec2f", mkAttribute 2 "c" "vec2f"]).isOk = true
    ∧ ([mkAttribute 0 "a" "vec2f", mkAttribute 1 "b" "vec2f",
        mkAttribute 2 "c" "vec2f"].map (·.location)).dedup
        = ([mkAttribute 0 "x" "vec2f", mkAttribute 0 "y" "vec2f",
            mkAttribute 1 "b" "vec2f", mkAttribute 2 "c" "vec2f"].map (·.location)).dedup
    ∧ (generateBufferLayouts
        [mkAttribute 0 "a" "vec2f", mkAttribute 1 "b" "vec2f",
         mkAttribute 2 "c" "vec2f"]).toOption
      ≠ (generateBufferLayouts
        [mkAttribute 0 "x" "vec2f", mkAttribute 0 "y" "vec2f",
         mkAttribute 1 "b" "vec2f", mkAttribute 2 "c" "vec2f"]).toOption := by
  decide

/-- C9 amended: buffer-layout generation depends only on the sequence of
declared attribute locations — never on the attributes' names or type
annotations — and every accepted input yields the layout pair whose
instance-stream attributes are `float32x2` at offset `8 * location` (one per
declared location below 2, in declaration order) and whose vertex-stream
attribute is `float32x2` at offset 0. -/
theorem layouts_determined_by_locations (l₁ l₂ : List VertexAttribute)
    (h : l₁.map (·.location) = l₂.map (·.location)) :
    generateBufferLayouts l₁ = generateBufferLayouts l₂
    ∧ ∀ layouts, generateBufferLayouts l₁ = .ok layouts →
        layouts =
          [{ arrayStride := 16, stepMode := "instance",
             attributes := ((l₁.map (·.location)).filter (fun p => p < 2)).map
               (fun p => { shaderLocation := p, offset := p * 8, format := "float32x2" }) },
           { arrayStride := 8, stepMode := "vertex",
             attributes := [{ shaderLocation := 2, offset := 0, format := "float32x2" }] }] := by
  constructor
  · rw [generateBufferLayouts_locs, generateBufferLayouts_locs, h]
  · intro layouts hl
    rw [generateBufferLayouts_locs] at hl
    by_cases hv : ([0, 1, 2].all (fun x => (l₁.map (·.location)).contains x)) = true
    · rw [if_neg (not_not_intro hv)] at hl
      injection hl with hh
      exact hh.symm
    · rw [if_pos hv] at hl
      exact Except.noConfusion hl

/-- C9 witness: two validated lists with equal location sequences but
different names and type annotations generate identical layouts. -/
theorem layouts_determined_by_locations_witness :
    generateBufferLayouts
        [mkAttribute 0 "a" "vec2f", mkAttribute 1 "b" "vec2f", mkAttribute 2 "c" "vec2f"]
      = generateBufferLayouts
        [mkAttribute 0 "p" "f32", mkAttribute 1 "q" "vec4f", mkAttribute 2 "r" "mat3x3f"] :=
  (layouts_determined_by_locations _ _ (by decide)).1

end WebgpuUtils

namespace WebgpuUtils

theorem scanFirst_eq_none_iff (f : List Char → Option String) (cs : List Char) :
    scanFirst f cs = none ↔ ∀ i, f (cs.drop i) = none := by
  induction cs with
  | nil =>
    simp [scanFirst, List.drop_nil]
  | cons c cs ih =>
    cases hf : f (c :: cs) with
    | some n =>
      apply iff_of_false
      · simp [scanFirst, hf]
      · intro hall
        have h0 := hall 0
        simp [hf] at h0
    | none =>
      have hstep : scanFirst f (c :: cs) = scanFirst f cs := by
        simp [scanFirst, hf]
      rw [hstep, ih]
      constructor
      · intro hall i
        cases i with
        | zero => simpa using hf
        | succ j => simpa [List.drop_succ_cons] using hall j
      · intro hall j
        simpa [List.drop_succ_cons] using hall (j + 1)

theorem isOk_error_ep (msg : String) :
    (Except.error msg : Except String EntryPoints).isOk = false := rfl

theorem isOk_ok_ep (e : EntryPoints) :
    (Except.ok e : Except String EntryPoints).isOk = true := rfl

theorem parseEntryPoints_compute (code : String) :
    parseEntryPoints code "compute" =
      match findCompute code.data with
      | none => .error "Compute shader must contain @compute entry point"
      | some n => .ok { vertex := none, fragment := none, compute := some n } := by
  cases hfc : findCompute code.data with
  | none => simp [parseEntryPoints, hfc]
  | some n => simp [parseEntryPoints, hfc]

theorem parseEntryPoints_render (code : String) :
    parseEntryPoints code "render" =
      match findStage vertexMarker code.data, findStage fragmentMarker code.data with
      | some v, some f => .ok { vertex := some v, fragment := some f, compute := none }
      | _, _ => .error "Render shader must contain both @vertex and @fragment entry points" := by
  cases hv : findStage vertexMarker code.data <;>
    cases hf : findStage fragmentMarker code.data <;>
      simp [parseEntryPoints, hv, hf]

theorem findCompute_ne_none_iff (code : String) :
    findCompute code.data ≠ none ↔ ∃ i, matchComputeAt (code.data.drop i) ≠ none := by
  rw [Ne, findCompute, scanFirst_eq_none_iff]
  push_neg
  rfl

theorem findStage_ne_none_iff (marker : List Char) (code : String) :
    findStage marker code.data ≠ none ↔
      ∃ i, matchStageAt marker (code.data.drop i) ≠ none := by
  rw [Ne, findStage, scanFirst_eq_none_iff]
  push_neg
  rfl

end WebgpuUtils

namespace WebgpuUtils

theorem entry_point_introspection (code : String) :
    ((parseEntryPoints code "compute").isOk = true ↔
      ∃ i, matchComputeAt (code.data.drop i) ≠ none)
    ∧ ((parseEntryPoints code "render").isOk = true ↔
      ((∃ i, matchStageAt vertexMarker (code.data.drop i) ≠ none)
        ∧ (∃ i, matchStageAt fragmentMarker (code.data.drop i) ≠ none)))
    ∧ (∀ e, parseEntryPoints code "compute" = .ok e →
        e = { vertex := none, fragment := none, compute := findCompute code.data })
    ∧ (∀ e, parseEntryPoints code "render" = .ok e →
        e = { vertex := findStage vertexMarker code.data,
              fragment := findStage fragmentMarker code.data, compute := none }) := by
  refine ⟨?_, ?_, ?_, ?_⟩
  · rw [parseEntryPoints_compute]
    cases hfc : findCompute code.data with
    | none =>
      exact iff_of_false (by simp [isOk_error_ep])
        (fun hex => ((findCompute_ne_none_iff code).mpr hex) hfc)
    | some n =>
      exact iff_of_true (isOk_ok_ep _)
        ((findCompute_ne_none_iff code).mp (by simp [hfc]))
  · rw [parseEntryPoints_render]
    cases hv : findStage vertexMarker code.data with
    | none =>
      apply iff_of_false
      · cases hf : findStage fragmentMarker code.data <;> simp [isOk_error_ep]
      · intro hex
        exact ((findStage_ne_none_iff vertexMarker code).mpr hex.1) hv
    | some v =>
      cases hf : findStage fragmentMarker code.data with
      | none =>
        apply iff_of_false
        · simp [isOk_error_ep]
        · intro hex
          exact ((findStage_ne_none_iff fragmentMarker code).mpr hex.2) hf
      | some f =>
        exact iff_of_true (isOk_ok_ep _)
          ⟨(findStage_ne_none_iff vertexMarker code).mp (by simp [hv]),
           (findStage_ne_none_iff fragmentMarker code).mp (by simp [hf])⟩
  · intro e he
    rw [parseEntryPoints_compute] at he
    cases hfc : findCompute code.data with
    | none => rw [hfc] at he; exact Except.noConfusion he
    | some n =>
      rw [hfc] at he
      injection he with hh
      exact hh.symm
  · intro e he
    rw [parseEntryPoints_render] at he
    cases hv : findStage vertexMarker code.data with
    | none => rw [hv] at he; exact Except.noConfusion he
    | some v =>
      rw [hv] at he
      cases hf : findStage fragmentMarker code.data with
      | none => rw [hf] at he; exact Except.noConfusion he
      | some f =>
        rw [hf] at he
        injection he with hh
        exact hh.symm

theorem entry_point_introspection_witness :
    (parseEntryPoints "@compute @workgroup_size(64) fn main()" "compute").isOk = true
    ∧ (parseEntryPoints "@vertex fn vert_main() @fragment fn frag_main()" "render").isOk = true
    ∧ findCompute "@compute fn main()".data = some "main" := by
  refine ⟨?_, ?_, ?_⟩
  · exact ((entry_point_introspection "@compute @workgroup_size(64) fn main()").1).mpr
      ⟨0, by decide⟩
  · exact ((entry_point_introspection "@vertex fn vert_main() @fragment fn frag_main()").2.1).mpr
      ⟨⟨0, by decide⟩, ⟨23, by decide⟩⟩
  · have h := (entry_point_introspection "@compute fn main()").2.2.1
      { vertex := none, fragment := none, compute := some "main" } rfl
    have := congrArg EntryPoints.compute h
    simpa using this.symm

end WebgpuUtils

namespace WebgpuUtils

/-- C10 counterexample: a compute pipeline created by `createPipeline` is
registered in the side table with type `compute` and no buffer list, so
`getPipelineType` reports `compute` — not `unknown` as claimed — while
`getPipelineBuffers` does return the empty list. -/
theorem compute_pipeline_type_not_unknown :
    getPipelineType (registerComputePipeline [] 7) 7 = "compute"
    ∧ getPipelineType (registerComputePipeline [] 7) 7 ≠ "unknown"
    ∧ getPipelineBuffers (registerComputePipeline [] 7) 7 = [] := by
  decide

/-- C10 amended: both metadata lookups are total.  For every pipeline that
was never registered with render metadata (no entry, or an entry without a
buffer list) `getPipelineBuffers` returns the empty list; `getPipelineType`
returns `unknown` for a pipeline with no metadata entry at all (any foreign
pipeline object), while a compute pipeline registered by `createPipeline`
reports `compute`. -/
theorem metadata_lookup_total (table : MetadataTable) (pid : Nat)
    (h : ∀ m, lookupMeta table pid = some m → m.buffers = none) :
    getPipelineBuffers table pid = []
    ∧ (lookupMeta table pid = none → getPipelineType table pid = "unknown")
    ∧ ∀ (table' : MetadataTable) (pid' : Nat),
        getPipelineType (registerComputePipeline table' pid') pid' = "compute"
        ∧ getPipelineBuffers (registerComputePipeline table' pid') pid' = [] := by
  refine ⟨?_, ?_, ?_⟩
  · cases hm : lookupMeta table pid with
    | none => simp [getPipelineBuffers, hm]
    | some m =>
      have hb := h m hm
      simp [getPipelineBuffers, hm, hb]
  · intro hnone
    simp [getPipelineType, hnone]
  · intro table' pid'
    constructor
    · simp [getPipelineType, registerComputePipeline, lookupMeta]
    · simp [getPipelineBuffers, registerComputePipeline, lookupMeta]

/-- C10 witness: an unregistered pipeline identifier yields the empty buffer
list and type `unknown`; a freshly registered compute pipeline yields type
`compute` and the empty buffer list. -/
theorem metadata_lookup_total_witness :
    getPipelineBuffers [] 5 = []
    ∧ getPipelineType ([] : MetadataTable) 5 = "unknown"
    ∧ getPipelineType (registerComputePipeline [] 3) 3 = "compute"
    ∧ getPipelineBuffers (registerComputePipeline [] 3) 3 = [] := by
  have h := metadata_lookup_total ([] : MetadataTable) 5
    (fun m hm => by simp [lookupMeta] at hm)
  exact ⟨h.1, h.2.1 rfl, (h.2.2 [] 3).1, (h.2.2 [] 3).2⟩

end WebgpuUtils
